import Mathlib

/-!
Shallow embedding of the conversation/job session manager of the PowerBi_Mcp
front end. The main React component (frontend/src/App.js) is modelled in the
namespace App; the second UI variant (the premium chat component) is modelled
in the namespace Premium. Network calls are modelled by passing the outcome of
each request as an explicit argument (none encodes a rejected promise), and
each operation returns the list of requests it issued together with the new
component state.
-/

/-- JS truthiness for an optional string field: null/undefined and the empty
string are falsy, every other string is truthy. -/
def jsTruthy : Option String → Bool
  | none => false
  | some "" => false
  | some _ => true

/-- JS truthiness of a plain (non nullable) string. -/
def jsTruthyStr (s : String) : Bool :=
  !(s == "")

/-- The JS expression a || b for an optional string a and a string b. -/
def jsOr (o : Option String) (alt : String) : String :=
  if jsTruthy o then o.getD alt else alt

/-- String interpolation of an optional value, as in a JS template literal:
an absent value prints as the text undefined. -/
def jsTemplate : Option String → String
  | none => "undefined"
  | some s => s

/-- JS s.trim(): strips leading and trailing whitespace. Implemented over the
character list so that the kernel can evaluate it. -/
def jsTrim (s : String) : String :=
  String.mk
    (((s.toList.dropWhile Char.isWhitespace).reverse.dropWhile Char.isWhitespace).reverse)

/-- JS s.toLowerCase(), over the character list. -/
def jsToLower (s : String) : String :=
  String.mk (s.toList.map Char.toLower)

/-- Whether the first list is an initial segment of the second. -/
def listStartsWith : List Char → List Char → Bool
  | [], _ => true
  | _ :: _, [] => false
  | a :: as, b :: bs => a == b && listStartsWith as bs

/-- Whether the first list occurs contiguously inside the second. -/
def listHasSub (sub : List Char) : List Char → Bool
  | [] => sub.isEmpty
  | x :: xs => listStartsWith sub (x :: xs) || listHasSub sub xs

/-- JS s.includes(sub): substring containment. -/
def jsIncludes (s sub : String) : Bool :=
  listHasSub sub.toList s.toList

/-- JS s.split(sep) for a single character separator. -/
def splitChar (c : Char) : List Char → List (List Char)
  | [] => [[]]
  | x :: xs =>
      if x == c then [] :: splitChar c xs
      else
        match splitChar c xs with
        | h :: t => (x :: h) :: t
        | [] => [[x]]

/-- A conversation summary as returned by GET /conversations. -/
structure Conversation where
  id : String
  title : String
  message_count : Nat
  updated_at : String
deriving Repr, DecidableEq

/-- A chat message held in the component message log. -/
structure Message where
  role : String
  content : String
  timestamp : String
  dashboard_url : Option String := none
  download_link : Option String := none
  error : Bool := false
  completed : Bool := false
deriving Repr, DecidableEq

/-- An uploaded file descriptor kept in the local file list. -/
structure UploadedFile where
  name : String
  path : String
  type : String
  uploadTime : String
deriving Repr, DecidableEq

/-- A job status record as returned by GET /job-status/{id} and stored in the
active jobs map. -/
structure Job where
  conversation_id : Option String := none
  status : String := ""
  progress : Nat := 0
  response : Option String := none
  dashboard_url : Option String := none
  download_link : Option String := none
  error : Option String := none
deriving Repr, DecidableEq

/-- A successful payload of POST /chat. -/
structure ChatResponse where
  response : String := ""
  conversation_id : Option String := none
  dashboard_url : Option String := none
  download_link : Option String := none
deriving Repr, DecidableEq

/-- The HTTP requests the component can issue. -/
inductive Request where
  | getConversations
  | getConversation (id : String)
  | getConversationFiles (id : String)
  | deleteConversationReq (id : String)
  | postChat (message : String) (conversation_id : Option String)
  | postUpload (files : List String) (conversation_id : Option String)
  | postCreateDashboard (message : String) (conversation_id : Option String)
      (file_paths : List String)
  | getJobStatus (job_id : String)
deriving Repr, DecidableEq

/-- The active jobs map, as a JS object: a list of key/value pairs with
distinct keys. Setting a key with object spread keeps the position of an
existing key and appends a fresh key at the end. -/
def upsertJob : List (String × Job) → String → Job → List (String × Job)
  | [], id, j => [(id, j)]
  | p :: rest, id, j =>
      if p.1 = id then (id, j) :: rest else p :: upsertJob rest id j

/-- Deleting a key from the jobs object. -/
def removeJob (jobs : List (String × Job)) (id : String) : List (String × Job) :=
  jobs.filter (fun p => p.1 != id)

/-- Looking a job up by its id. -/
def lookupJob (jobs : List (String × Job)) (id : String) : Option Job :=
  (jobs.find? (fun p => p.1 == id)).map Prod.snd

/-!
Poll timer model (App.js, the effect hooked on the activeJobs state).

The effect reacts to every mutation of the jobs map: React first runs the
cleanup of the previous effect run (clearInterval on the current ref value,
without nulling the ref), then the body: with a non empty map it stores a
fresh interval in the ref; with an empty map it clears and nulls the ref.
TimerState.live is the multiset of interval ids currently scheduled in the
process, so the process wide timer count is live.length.
-/

structure TimerState where
  timerRef : Option Nat
  live : List Nat
  next : Nat
deriving Repr, DecidableEq

def initialTimerState : TimerState := ⟨none, [], 0⟩

/-- One run of the poll effect (cleanup of the previous run, then the body),
given the number of entries of the jobs map. -/
def pollEffect (jobsCount : Nat) (ts : TimerState) : TimerState :=
  let t1 := match ts.timerRef with
    | some id => { ts with live := ts.live.erase id }
    | none => ts
  if 0 < jobsCount then
    { timerRef := some t1.next, live := t1.live ++ [t1.next], next := t1.next + 1 }
  else
    match t1.timerRef with
    | some id => { timerRef := none, live := t1.live.erase id, next := t1.next }
    | none => t1

/-- The state transitions that mutate the jobs map: insertion from a
create dashboard response, a status merge and a retirement from the poller,
and startNewConversation clearing the map. -/
inductive JobsOp where
  | insert (id : String) (j : Job)
  | merge (id : String) (j : Job)
  | retire (id : String)
  | clearAll
deriving Repr, DecidableEq

def applyJobsOp (jobs : List (String × Job)) : JobsOp → List (String × Job)
  | .insert id j => upsertJob jobs id j
  | .merge id j => upsertJob jobs id j
  | .retire id => removeJob jobs id
  | .clearAll => []

/-- A jobs map mutation immediately followed by the effect re-run. -/
def jobsStep (sys : List (String × Job) × TimerState) (op : JobsOp) :
    List (String × Job) × TimerState :=
  let jobs := applyJobsOp sys.1 op
  (jobs, pollEffect jobs.length sys.2)

/-- The ref and the scheduled timers stay in lock step: the ref points at the
single live timer, or there is none. -/
def TimerInv (ts : TimerState) : Prop :=
  ts.live = ts.timerRef.elim [] (fun id => [id])

/-!
The main component (frontend/src/App.js).
-/

namespace App

/-- The React state of the main component (presentation only state such as
drag highlighting and the sidebar toggle is omitted). currentConversationId
is initialised to null (none) and startNewConversation resets it to the empty
string (some of the empty string), mirroring the source. -/
structure AppState where
  conversations : List Conversation := []
  currentConversationId : Option String := none
  messages : List Message := []
  inputMessage : String := ""
  isLoading : Bool := false
  uploadedFiles : List UploadedFile := []
  activeJobs : List (String × Job) := []
  loadingConversation : Bool := false
deriving Repr, DecidableEq

/-- loadConversations: the outer option is promise resolution (none encodes a
rejected GET), the inner option is the presence of the conversations field of
the payload (the source falls back to the empty list). On failure the catch
logs and resets the list to the empty list. -/
def loadConversations (res : Option (Option (List Conversation))) (s : AppState) :
    AppState × List Request :=
  match res with
  | some data => ({ s with conversations := data.getD [] }, [Request.getConversations])
  | none => ({ s with conversations := [] }, [Request.getConversations])

/-- loadConversation: guarded by the loadingConversation flag; on success of
the message fetch the log is replaced and the id adopted, then the file list
fetch runs (its failure clears the file list, a payload without a files field
leaves it untouched); failure of the message fetch clears log and file list. -/
def loadConversation (convRes : Option (Option (List Message)))
    (filesRes : Option (Option (List UploadedFile))) (conversationId : String)
    (s : AppState) : AppState × List Request :=
  if s.loadingConversation then (s, [])
  else
    let s1 := { s with loadingConversation := true }
    match convRes with
    | none =>
        ({ s1 with messages := [], uploadedFiles := [], loadingConversation := false },
          [Request.getConversation conversationId])
    | some none =>
        ({ s1 with loadingConversation := false }, [Request.getConversation conversationId])
    | some (some msgs) =>
        let s2 := { s1 with messages := msgs, currentConversationId := some conversationId }
        match filesRes with
        | none =>
            ({ s2 with uploadedFiles := [], loadingConversation := false },
              [Request.getConversation conversationId,
               Request.getConversationFiles conversationId])
        | some none =>
            ({ s2 with loadingConversation := false },
              [Request.getConversation conversationId,
               Request.getConversationFiles conversationId])
        | some (some fs) =>
            ({ s2 with uploadedFiles := fs, loadingConversation := false },
              [Request.getConversation conversationId,
               Request.getConversationFiles conversationId])

/-- startNewConversation clears the log, the file list and the jobs map, and
resets the conversation id to the empty string. -/
def startNewConversation (s : AppState) : AppState :=
  { s with messages := [], uploadedFiles := [], currentConversationId := some "",
           activeJobs := [] }

/-- The keyword heuristic of the dashboard branch of sendMessage. -/
def dashboardIntent (userMessage : String) : Bool :=
  jsIncludes (jsToLower userMessage) "dashboard" ||
  jsIncludes (jsToLower userMessage) "chart" ||
  jsIncludes (jsToLower userMessage) "visualization"

/-- The optimistic user message appended before the chat POST. -/
def mkUserMessage (now content : String) : Message :=
  { role := "user", content := content, timestamp := now }

/-- The assistant message built from a successful chat response. -/
def chatAssistantMessage (now : String) (r : ChatResponse) : Message :=
  { role := "assistant", content := r.response, timestamp := now,
    dashboard_url := r.dashboard_url, download_link := r.download_link }

/-- The fixed error message appended by the catch of sendMessage. -/
def sendErrorMessage (now : String) : Message :=
  { role := "assistant",
    content := "Sorry, I encountered an error processing your request. Please try again.",
    timestamp := now, error := true }

/-- The environment of one sendMessage run: the timestamp, the outcome of the
chat POST (none encodes rejection), the outcome of the create dashboard POST
(none encodes rejection, otherwise the job_id field of the payload), and the
outcome of the trailing conversations refresh. -/
structure SendEnv where
  now : String := ""
  chat : Option ChatResponse := none
  dash : Option (Option String) := none
  convs : Option (Option (List Conversation)) := none

/-- sendMessage of the main component. Returns the new state and the requests
issued, in order. -/
def sendMessage (env : SendEnv) (s : AppState) : AppState × List Request :=
  if jsTrim s.inputMessage = "" ∧ s.uploadedFiles.length = 0 then (s, [])
  else
    let userMessage := jsTrim s.inputMessage
    let s1 := { s with inputMessage := "", isLoading := true }
    let s2 := if userMessage = "" then s1
      else { s1 with messages := s1.messages ++ [mkUserMessage env.now userMessage] }
    let chatReq := Request.postChat
      (if userMessage = "" then "I have uploaded files for dashboard creation"
       else userMessage) s.currentConversationId
    match env.chat with
    | none =>
        ({ s2 with messages := s2.messages ++ [sendErrorMessage env.now],
                   isLoading := false }, [chatReq])
    | some r =>
        let s3 := { s2 with
          messages := s2.messages ++ [chatAssistantMessage env.now r],
          currentConversationId := r.conversation_id }
        if 0 < s3.uploadedFiles.length ∧ dashboardIntent userMessage = true then
          let dashReq := Request.postCreateDashboard userMessage r.conversation_id
            (s3.uploadedFiles.map (fun f => f.path))
          match env.dash with
          | none =>
              ({ s3 with messages := s3.messages ++ [sendErrorMessage env.now],
                         isLoading := false }, [chatReq, dashReq])
          | some job_id =>
              let newJob : Job :=
                { conversation_id := r.conversation_id, status := "processing",
                  progress := 0 }
              let s4 := if jsTruthy job_id then
                  { s3 with activeJobs := upsertJob s3.activeJobs (job_id.getD "") newJob }
                else s3
              let s5 := (loadConversations env.convs s4).1
              ({ s5 with isLoading := false },
                [chatReq, dashReq, Request.getConversations])
        else
          let s5 := (loadConversations env.convs s3).1
          ({ s5 with isLoading := false }, [chatReq, Request.getConversations])

/-- The file type inferred from the extension: last dot separated component,
lower cased. -/
def extType (name : String) : String :=
  jsToLower (String.mk ((splitChar '.' name.toList).getLastD []))

/-- A successful upload payload. -/
structure UploadResponse where
  file_names : List String := []
  conversation_id : Option String := none
deriving Repr, DecidableEq

/-- The outcome of the upload POST: success with a payload, or rejection with
the optional structured detail and the optional HTTP status of the error. -/
inductive UploadResult where
  | ok (r : UploadResponse)
  | err (detail : Option String) (status : Option Nat)
deriving Repr, DecidableEq

/-- The error text selection of the upload catch. -/
def uploadErrorText (detail : Option String) (status : Option Nat) : String :=
  if jsTruthy detail then "Upload failed: " ++ detail.getD ""
  else if status = some 413 then
    "File too large. Please upload files smaller than 100MB."
  else if status = some 400 then
    "Invalid file format. Please upload CSV, Excel, JSON, TXT, or image files."
  else "Error uploading files. Please try again."

/-- handleFileUpload: posts the selected files (with the conversation id when
one is truthy); on success extends the file list and sets the conversation id
to the returned one; on failure appends one error flagged assistant message. -/
def handleFileUpload (now : String) (res : UploadResult) (files : List String)
    (s : AppState) : AppState × List Request :=
  let req := Request.postUpload files
    (if jsTruthy s.currentConversationId then s.currentConversationId else none)
  match res with
  | .ok r =>
      let newFiles := r.file_names.map (fun name =>
        ({ name := name, path := name, type := extType name,
           uploadTime := now } : UploadedFile))
      ({ s with uploadedFiles := s.uploadedFiles ++ newFiles,
                currentConversationId := r.conversation_id }, [req])
  | .err detail status =>
      ({ s with messages := s.messages ++
          [{ role := "assistant", content := uploadErrorText detail status,
             timestamp := now, error := true }] }, [req])

/-- The terminal assistant message of a completed job. -/
def jobCompletedMessage (now : String) (st : Job) : Message :=
  { role := "assistant", content := st.response.getD "", timestamp := now,
    dashboard_url := st.dashboard_url, download_link := st.download_link,
    completed := true }

/-- The error flagged assistant message of a failed job. -/
def jobErrorMessage (now : String) (st : Job) : Message :=
  { role := "assistant", content := jsOr st.response ("Error: " ++ jsTemplate st.error),
    timestamp := now, error := true }

/-- The loop body of checkJobStatuses for one tracked job id, given the
outcome of its status fetch (none encodes a rejected GET, which the catch
only logs). -/
def processJob (now : String) (res : Option Job) (jobId : String) (s : AppState) :
    AppState × List Request :=
  let req := Request.getJobStatus jobId
  match res with
  | none => (s, [req])
  | some jobStatus =>
      let s1 := { s with activeJobs := upsertJob s.activeJobs jobId jobStatus }
      let s2 :=
        if jobStatus.status = "completed" ∧ jsTruthy jobStatus.response = true then
          let s2a :=
            if s1.messages.any (fun msg =>
                msg.completed && msg.content == jobStatus.response.getD "") then s1
            else { s1 with messages := s1.messages ++ [jobCompletedMessage now jobStatus] }
          { s2a with activeJobs := removeJob s2a.activeJobs jobId }
        else s1
      if jobStatus.status = "error" then
        ({ s2 with messages := s2.messages ++ [jobErrorMessage now jobStatus],
                   activeJobs := removeJob s2.activeJobs jobId }, [req])
      else (s2, [req])

/-- The sequential loop of checkJobStatuses over a snapshot of job ids. -/
def runJobs (now : String) (results : String → Option Job) (keys : List String)
    (s : AppState) : AppState × List Request :=
  match keys with
  | [] => (s, [])
  | k :: rest =>
      let r := processJob now (results k) k s
      let r2 := runJobs now results rest r.1
      (r2.1, r.2 ++ r2.2)

/-- One poll tick: every currently tracked job id is fetched independently and
the results are folded into state in loop order. -/
def checkJobStatuses (now : String) (results : String → Option Job) (s : AppState) :
    AppState × List Request :=
  runJobs now results (s.activeJobs.map Prod.fst) s

end App

/-!
The premium chat variant (the second App component of the repository).
-/

namespace Premium

/-- A file entry of the premium variant. -/
structure PremiumFile where
  filename : String
  uploadTime : String
deriving Repr, DecidableEq

/-- The React state of the premium component (theme state omitted). Its
conversation id is a plain string initialised to the empty string. -/
structure PremiumState where
  messages : List Message := []
  inputMessage : String := ""
  isLoading : Bool := false
  conversations : List Conversation := []
  currentConversationId : String := ""
  uploadedFiles : List PremiumFile := []
  loadingConversation : Bool := false
deriving Repr, DecidableEq

/-- loadConversations of the premium variant: the catch only logs, leaving
every piece of state untouched. -/
def loadConversations (res : Option (Option (List Conversation))) (s : PremiumState) :
    PremiumState × List Request :=
  match res with
  | some data => ({ s with conversations := data.getD [] }, [Request.getConversations])
  | none => (s, [Request.getConversations])

/-- The fixed error message of the premium sendMessage catch (no error flag
is set on it in this variant). -/
def premiumErrorMessage (now : String) : Message :=
  { role := "assistant",
    content := "I encountered an issue processing your request. Please try again.",
    timestamp := now }

/-- sendMessage of the premium variant: guarded by empty input or an in
flight send; the optimistic user message carries the untrimmed input; the
conversation id is adopted only when none was active. -/
def sendMessage (env : App.SendEnv) (s : PremiumState) : PremiumState × List Request :=
  if jsTrim s.inputMessage = "" ∨ s.isLoading = true then (s, [])
  else
    let userMessage : Message :=
      { role := "user", content := s.inputMessage, timestamp := env.now }
    let s1 := { s with messages := s.messages ++ [userMessage],
                       inputMessage := "", isLoading := true }
    let chatReq := Request.postChat s.inputMessage (some s.currentConversationId)
    match env.chat with
    | none =>
        ({ s1 with messages := s1.messages ++ [premiumErrorMessage env.now],
                   isLoading := false }, [chatReq])
    | some r =>
        let assistantMessage : Message :=
          { role := "assistant", content := r.response, timestamp := env.now }
        let s2 := { s1 with messages := s1.messages ++ [assistantMessage] }
        if jsTruthyStr s.currentConversationId = false ∧ jsTruthy r.conversation_id = true then
          let s3 := { s2 with currentConversationId := r.conversation_id.getD "" }
          let s4 := (loadConversations env.convs s3).1
          ({ s4 with isLoading := false }, [chatReq, Request.getConversations])
        else
          ({ s2 with isLoading := false }, [chatReq])

end Premium



/-!
Derived observations and concrete states used by the verification below.
-/

/-- The create dashboard requests among a list of issued requests, with their
message, conversation id and file paths. -/
def dashRequests (reqs : List Request) : List (String × Option String × List String) :=
  reqs.filterMap (fun r =>
    match r with
    | Request.postCreateDashboard m c f => some (m, c, f)
    | _ => none)

/-- The number of messages of the log that carry the completed flag and a
given content. -/
def countCompleted (X : String) (msgs : List Message) : Nat :=
  (msgs.filter (fun m => m.completed && m.content == X)).length

/-- Folding a sequence of poll ticks (each with its timestamp and its fetch
outcomes) into the component state. -/
def applyTicks (ticks : List (String × (String → Option Job))) (s : App.AppState) :
    App.AppState :=
  ticks.foldl (fun st t => (App.checkJobStatuses t.1 t.2 st).1) s

/-- A tracked job whose fetch comes back completed but with no response
string. -/
def c2Fetch : String → Option Job := fun _ => some { status := "completed" }

def c2State : App.AppState := { activeJobs := [("j1", { status := "processing" })] }

/-- A failed job used to instantiate the corrected C2 statement. -/
def c2wJob : Job := { status := "error", error := some "boom" }

def c2wState : App.AppState := { activeJobs := [("j1", c2wJob)] }

/-- A state with a send in flight and non empty input text. -/
def c4State : App.AppState := { inputMessage := "hi", isLoading := true }

def c4PremiumState : Premium.PremiumState := { inputMessage := "hi", isLoading := true }

/-- A state holding one previously fetched conversation. -/
def c5State : App.AppState :=
  { conversations := [{ id := "c1", title := "T", message_count := 1, updated_at := "d" }] }

/-- A state with an active conversation id, and a chat success carrying a
different server assigned id. -/
def c6State : App.AppState := { inputMessage := "hi", currentConversationId := some "c1" }

def c6Resp : ChatResponse := { response := "ok", conversation_id := some "c2" }

def c6Env : App.SendEnv := { now := "t", chat := some c6Resp, convs := some (some []) }

def c6Upload : App.UploadResponse :=
  { file_names := ["f.csv"], conversation_id := some "c9" }

/-- Two consecutive ticks both observing the same completed response. -/
def c3Ticks : List (String × (String → Option Job)) :=
  [("t1", fun _ => some { status := "completed", response := some "Done" }),
   ("t2", fun _ => some { status := "completed", response := some "Done" })]

def c3State : App.AppState := { activeJobs := [("j1", { status := "processing" })] }

/-- The optimistic user message list: empty when the trimmed text is empty. -/
def optUserMessage (now msg : String) : List Message :=
  if msg = "" then [] else [App.mkUserMessage now msg]

/-- The chat POST issued by sendMessage, with the placeholder body for an
upload only turn. -/
def chatRequest (s : App.AppState) : Request :=
  Request.postChat
    (if jsTrim s.inputMessage = "" then "I have uploaded files for dashboard creation"
     else jsTrim s.inputMessage) s.currentConversationId

/-- A chat success, a dashboard job id, and a staged file with a matching
dashboard request text. -/
def c7Resp : ChatResponse := { response := "ok", conversation_id := some "c1" }

def c7Env : App.SendEnv :=
  { now := "t", chat := some c7Resp, dash := some (some "j7"), convs := some (some []) }

def c7State : App.AppState :=
  { inputMessage := "make a dashboard",
    uploadedFiles := [{ name := "d.csv", path := "d.csv", type := "csv",
                        uploadTime := "t0" }] }

/-- A non empty input whose chat POST fails. -/
def c10State : App.AppState := { inputMessage := "hello" }

def c10Env : App.SendEnv := { now := "t" }

/-!
Theorems.
-/

lemma pollEffect_spec (n : Nat) (ts : TimerState) (h : TimerInv ts) :
    TimerInv (pollEffect n ts) ∧
      (pollEffect n ts).live.length = if 0 < n then 1 else 0 := by
  obtain ⟨ref, live, nx⟩ := ts
  cases ref with
  | none =>
    simp [TimerInv] at h
    subst h
    by_cases hn : 0 < n <;> simp [pollEffect, hn, TimerInv]
  | some id =>
    simp [TimerInv] at h
    subst h
    by_cases hn : 0 < n <;> simp [pollEffect, hn, TimerInv]

lemma foldl_jobsStep_inv (ops : List JobsOp) (sys : List (String × Job) × TimerState)
    (h1 : TimerInv sys.2)
    (h2 : sys.2.live.length = if 0 < sys.1.length then 1 else 0) :
    TimerInv (ops.foldl jobsStep sys).2 ∧
      (ops.foldl jobsStep sys).2.live.length =
        if 0 < (ops.foldl jobsStep sys).1.length then 1 else 0 := by
  induction ops generalizing sys with
  | nil => exact ⟨h1, h2⟩
  | cons op rest ih =>
    simp only [List.foldl_cons]
    exact ih _ (pollEffect_spec _ _ h1).1 (pollEffect_spec _ _ h1).2

/-- C1: starting from the initial state (no job, no timer), after any sequence
of jobs map mutations, each followed by the poll effect, at most one poll
timer is scheduled process wide, and one is scheduled exactly when the active
jobs map is non empty. -/
theorem C1_poll_timer_iff_jobs (ops : List JobsOp) :
    ((ops.foldl jobsStep ([], initialTimerState)).2.live.length ≤ 1) ∧
      ((ops.foldl jobsStep ([], initialTimerState)).2.live ≠ [] ↔
        (ops.foldl jobsStep ([], initialTimerState)).1 ≠ []) := by
  have h := foldl_jobsStep_inv ops ([], initialTimerState)
    (by simp [TimerInv, initialTimerState]) (by simp [initialTimerState])
  obtain ⟨-, hlen⟩ := h
  constructor
  · rw [hlen]; split <;> simp
  · rw [← List.length_pos, hlen, ← List.length_pos]
    split <;> omega


lemma removeJob_upsertJob (jobs : List (String × Job)) (id : String) (j : Job) :
    removeJob (upsertJob jobs id j) id = removeJob jobs id := by
  induction jobs with
  | nil => simp [upsertJob, removeJob]
  | cons p rest ih =>
    by_cases h : p.1 = id
    · simp [upsertJob, removeJob, h]
    · have ih2 := ih
      simp only [removeJob] at ih2
      simp [upsertJob, removeJob, h, ih2]

/-- C4 as stated is false on the main component: with a send in flight and a
non empty input, invoking sendMessage issues the chat POST and mutates the
log. -/
theorem C4_counterexample :
    c4State.isLoading = true ∧
      (App.sendMessage { now := "t" } c4State).2 ≠ [] ∧
      (App.sendMessage { now := "t" } c4State).1.messages ≠ c4State.messages := by
  refine ⟨rfl, ?_, ?_⟩ <;> decide

/-- C4 corrected: in the main component, sendMessage is a no-op when the
trimmed input is empty and no file is staged (there is no in-flight guard);
in the premium variant, sendMessage is a no-op when the trimmed input is
empty or a send is in flight. -/
theorem C4_corrected (env penv : App.SendEnv) (s : App.AppState) (p : Premium.PremiumState)
    (hs : jsTrim s.inputMessage = "" ∧ s.uploadedFiles = [])
    (hp : jsTrim p.inputMessage = "" ∨ p.isLoading = true) :
    App.sendMessage env s = (s, []) ∧ Premium.sendMessage penv p = (p, []) := by
  constructor
  · have hlen : s.uploadedFiles.length = 0 := by rw [hs.2]; rfl
    simp [App.sendMessage, hs.1, hlen]
  · simp only [Premium.sendMessage]
    rw [if_pos hp]

/-- Instantiation of the corrected C4 statement. -/
theorem C4_corrected_witness :
    (jsTrim ("" : String) = "" ∧ ({} : App.AppState).uploadedFiles = []) ∧
      (jsTrim c4PremiumState.inputMessage = "" ∨ c4PremiumState.isLoading = true) ∧
      (App.sendMessage {} {} = ({}, []) ∧
        Premium.sendMessage {} c4PremiumState = (c4PremiumState, [])) :=
  ⟨⟨rfl, rfl⟩, Or.inr rfl, C4_corrected {} {} {} c4PremiumState ⟨rfl, rfl⟩ (Or.inr rfl)⟩

/-- C5 as stated is false: a failing conversations GET does not leave the
prior list untouched in the main component. -/
theorem C5_counterexample :
    (App.loadConversations none c5State).1.conversations ≠ c5State.conversations := by
  decide

/-- C5 corrected: on a failing conversations GET the main component resets
the list to the empty list, while the premium variant leaves the whole state
untouched. -/
theorem C5_corrected (s : App.AppState) (p : Premium.PremiumState) :
    (App.loadConversations none s).1.conversations = [] ∧
      Premium.loadConversations none p = (p, [Request.getConversations]) :=
  ⟨rfl, rfl⟩

/-- C8: while the single flight flag is set by a pending load, a second
invocation of loadConversation issues no fetch and leaves the state
unchanged. -/
theorem C8_single_flight (convRes : Option (Option (List Message)))
    (filesRes : Option (Option (List UploadedFile))) (conversationId : String)
    (s : App.AppState) (h : s.loadingConversation = true) :
    App.loadConversation convRes filesRes conversationId s = (s, []) := by
  simp [App.loadConversation, h]

/-- Instantiation of the C8 statement. -/
theorem C8_single_flight_witness :
    ({ loadingConversation := true } : App.AppState).loadingConversation = true ∧
      App.loadConversation none none "c1" { loadingConversation := true } =
        (({ loadingConversation := true } : App.AppState), []) :=
  ⟨rfl, C8_single_flight none none "c1" { loadingConversation := true } rfl⟩

/-- C2 as stated is false: a poll fetch returning the terminal status
completed but without a response string merges the status yet neither emits a
message nor retires the job. -/
theorem C2_counterexample :
    (App.checkJobStatuses "t" c2Fetch c2State).1.activeJobs =
        [("j1", ({ status := "completed" } : Job))] ∧
      (App.checkJobStatuses "t" c2Fetch c2State).1.messages = [] := by
  constructor <;> decide

/-- C2 corrected: a terminal fetch retires the job and emits one message,
except that a completed status with an absent or empty response string only
merges the status (no message, no retirement). On error, the job is removed
unconditionally and the error flagged message prefers a truthy server
response string over the formatted error. -/
theorem C2_corrected (now : String) (s : App.AppState) (jobId : String) (st : Job)
    (hterm : st.status = "completed" ∨ st.status = "error") :
    (App.processJob now (some st) jobId s).1.activeJobs =
        (if st.status = "error" ∨ jsTruthy st.response = true
         then removeJob s.activeJobs jobId
         else upsertJob s.activeJobs jobId st) ∧
      (App.processJob now (some st) jobId s).1.messages =
        (if st.status = "error" then s.messages ++ [App.jobErrorMessage now st]
         else if jsTruthy st.response = false then s.messages
         else if s.messages.any (fun m => m.completed && m.content == st.response.getD "")
           then s.messages
           else s.messages ++ [App.jobCompletedMessage now st]) := by
  have hces : ("completed" : String) ≠ "error" := by decide
  rcases hterm with h | h
  · have hne : ¬ st.status = "error" := by rw [h]; exact hces
    by_cases hr : jsTruthy st.response = true
    · by_cases hd :
        s.messages.any (fun m => m.completed && m.content == st.response.getD "") = true
      · simp [App.processJob, h, hr, hd, hne, removeJob_upsertJob]
      · simp [App.processJob, h, hr, hd, hne, removeJob_upsertJob]
    · have hrf : jsTruthy st.response = false := by
        cases hx : jsTruthy st.response
        · rfl
        · exact absurd hx hr
      simp [App.processJob, h, hrf, hne]
  · simp [App.processJob, h, hces.symm, removeJob_upsertJob]

/-- Instantiation of the corrected C2 statement at a failed job. -/
theorem C2_corrected_witness :
    (c2wJob.status = "completed" ∨ c2wJob.status = "error") ∧
      ((App.processJob "t" (some c2wJob) "j1" c2wState).1.activeJobs =
          (if c2wJob.status = "error" ∨ jsTruthy c2wJob.response = true
           then removeJob c2wState.activeJobs "j1"
           else upsertJob c2wState.activeJobs "j1" c2wJob) ∧
        (App.processJob "t" (some c2wJob) "j1" c2wState).1.messages =
          (if c2wJob.status = "error" then
            c2wState.messages ++ [App.jobErrorMessage "t" c2wJob]
           else if jsTruthy c2wJob.response = false then c2wState.messages
           else if c2wState.messages.any (fun m =>
               m.completed && m.content == c2wJob.response.getD "") then c2wState.messages
           else c2wState.messages ++ [App.jobCompletedMessage "t" c2wJob])) :=
  ⟨Or.inr rfl, C2_corrected "t" c2wState "j1" c2wJob (Or.inr rfl)⟩

lemma countCompleted_append (X : String) (msgs : List Message) (m : Message) :
    countCompleted X (msgs ++ [m]) =
      countCompleted X msgs + (if m.completed && m.content == X then 1 else 0) := by
  cases hp : (m.completed && m.content == X) <;>
    simp [countCompleted, List.filter_append, List.filter_cons, hp]

lemma countCompleted_eq_zero_of_any_false (X : String) (msgs : List Message)
    (h : msgs.any (fun m => m.completed && m.content == X) = false) :
    countCompleted X msgs = 0 := by
  rw [countCompleted, List.length_eq_zero, List.filter_eq_nil_iff]
  intro a ha
  rw [List.any_eq_false] at h
  exact h a ha

lemma processJob_countCompleted_le (X now : String) (res : Option Job) (jobId : String)
    (s : App.AppState) (h : countCompleted X s.messages ≤ 1) :
    countCompleted X ((App.processJob now res jobId s).1).messages ≤ 1 := by
  cases res with
  | none => simpa [App.processJob] using h
  | some st =>
    by_cases hc : st.status = "completed" ∧ jsTruthy st.response = true
    · have hne : ¬ st.status = "error" := by rw [hc.1]; decide
      by_cases hd :
          s.messages.any (fun m => m.completed && m.content == st.response.getD "") = true
      · simpa [App.processJob, hc, hd, hne] using h
      · have hd0 :
            s.messages.any (fun m => m.completed && m.content == st.response.getD "") = false := by
          cases hx : s.messages.any (fun m => m.completed && m.content == st.response.getD "")
          · rfl
          · exact absurd hx hd
        simp [App.processJob, hc, hd0, hne, countCompleted_append, App.jobCompletedMessage]
        by_cases hx : st.response.getD "" = X
        · have h0 : countCompleted X s.messages = 0 := by
            rw [← hx]
            exact countCompleted_eq_zero_of_any_false _ _ (hx ▸ hd0)
          simp [hx, h0]
        · simpa [hx] using h
    · by_cases he : st.status = "error"
      · simpa [App.processJob, hc, he, countCompleted_append, App.jobErrorMessage] using h
      · simpa [App.processJob, hc, he] using h

lemma runJobs_countCompleted_le (X now : String) (results : String → Option Job)
    (keys : List String) :
    ∀ s : App.AppState, countCompleted X s.messages ≤ 1 →
      countCompleted X ((App.runJobs now results keys s).1).messages ≤ 1 := by
  induction keys with
  | nil => intro s h; simpa [App.runJobs] using h
  | cons k rest ih =>
    intro s h
    simp only [App.runJobs]
    exact ih _ (processJob_countCompleted_le X now (results k) k s h)

/-- C3: for every response text X, if the log holds at most one completed
message with content X, then after any sequence of poll ticks it still holds
at most one: the dedup guard makes the terminal append idempotent in the
response content. -/
theorem C3_completed_dedup (X : String) (s : App.AppState)
    (ticks : List (String × (String → Option Job)))
    (h : countCompleted X s.messages ≤ 1) :
    countCompleted X (applyTicks ticks s).messages ≤ 1 := by
  induction ticks generalizing s with
  | nil => simpa [applyTicks] using h
  | cons t rest ih =>
    simp only [applyTicks, List.foldl_cons]
    have step : countCompleted X ((App.checkJobStatuses t.1 t.2 s).1).messages ≤ 1 :=
      runJobs_countCompleted_le X t.1 t.2 _ s h
    simpa [applyTicks] using ih _ step

/-- Instantiation of the C3 statement: two ticks observing the same completed
response yield a single terminal message. -/
theorem C3_completed_dedup_witness :
    countCompleted "Done" c3State.messages ≤ 1 ∧
      countCompleted "Done" (applyTicks c3Ticks c3State).messages ≤ 1 :=
  ⟨by decide, C3_completed_dedup "Done" c3State c3Ticks (by decide)⟩

lemma loadConversations_frame (res : Option (Option (List Conversation)))
    (s : App.AppState) :
    (App.loadConversations res s).1.currentConversationId = s.currentConversationId ∧
      (App.loadConversations res s).1.messages = s.messages ∧
      (App.loadConversations res s).1.uploadedFiles = s.uploadedFiles ∧
      (App.loadConversations res s).1.activeJobs = s.activeJobs ∧
      (App.loadConversations res s).1.inputMessage = s.inputMessage := by
  cases res <;> simp [App.loadConversations]

/-- C6 as stated is false: a successful send with an active conversation id
and a server returned id different from it changes the active id. -/
theorem C6_counterexample :
    (App.sendMessage c6Env c6State).1.currentConversationId ≠
      c6State.currentConversationId := by
  decide

/-- C6 corrected: on success, both sendMessage and the upload handler set the
active conversation id unconditionally to the conversation id of the server
response, whether or not an id was already active; the active id is preserved
only when the server echoes it back. -/
theorem C6_corrected (env : App.SendEnv) (r : ChatResponse) (s : App.AppState)
    (now : String) (u : App.UploadResponse) (files : List String)
    (hguard : ¬(jsTrim s.inputMessage = "" ∧ s.uploadedFiles.length = 0))
    (hchat : env.chat = some r) :
    (App.sendMessage env s).1.currentConversationId = r.conversation_id ∧
      (App.handleFileUpload now (App.UploadResult.ok u) files s).1.currentConversationId =
        u.conversation_id := by
  constructor
  · simp only [App.sendMessage, hchat]
    rw [if_neg hguard]
    repeat' split
    all_goals simp [(loadConversations_frame _ _).1]
  · simp [App.handleFileUpload]

/-- Instantiation of the corrected C6 statement. -/
theorem C6_corrected_witness :
    (¬(jsTrim c6State.inputMessage = "" ∧ c6State.uploadedFiles.length = 0)) ∧
      c6Env.chat = some c6Resp ∧
      ((App.sendMessage c6Env c6State).1.currentConversationId = c6Resp.conversation_id ∧
        (App.handleFileUpload "t" (App.UploadResult.ok c6Upload) ["f.csv"]
            c6State).1.currentConversationId = c6Upload.conversation_id) :=
  ⟨by decide, rfl,
    C6_corrected c6Env c6Resp c6State "t" c6Upload ["f.csv"] (by decide) rfl⟩

lemma dashboardIntent_empty : App.dashboardIntent "" = false := rfl

lemma sendMessage_chatFail (env : App.SendEnv) (s : App.AppState)
    (hg : ¬(jsTrim s.inputMessage = "" ∧ s.uploadedFiles.length = 0))
    (hchat : env.chat = none) :
    App.sendMessage env s =
      ({ s with
          inputMessage := "", isLoading := false,
          messages := s.messages ++ optUserMessage env.now (jsTrim s.inputMessage) ++
            [App.sendErrorMessage env.now] },
        [chatRequest s]) := by
  simp only [App.sendMessage, hchat]
  rw [if_neg hg]
  by_cases hu : jsTrim s.inputMessage = "" <;> simp [hu, optUserMessage, chatRequest]

lemma sendMessage_noDash (env : App.SendEnv) (s : App.AppState) (r : ChatResponse)
    (hg : ¬(jsTrim s.inputMessage = "" ∧ s.uploadedFiles.length = 0))
    (hchat : env.chat = some r)
    (hb : ¬(0 < s.uploadedFiles.length ∧ App.dashboardIntent (jsTrim s.inputMessage) = true)) :
    App.sendMessage env s =
      ({ (App.loadConversations env.convs
          { s with
            inputMessage := "", isLoading := true,
            messages := s.messages ++ optUserMessage env.now (jsTrim s.inputMessage) ++
              [App.chatAssistantMessage env.now r],
            currentConversationId := r.conversation_id }).1 with isLoading := false },
        [chatRequest s, Request.getConversations]) := by
  simp only [App.sendMessage, hchat]
  rw [if_neg hg]
  by_cases hu : jsTrim s.inputMessage = ""
  · simp only [hu] at hb ⊢
    simp [optUserMessage, chatRequest, hu, hb, dashboardIntent_empty]
  · simp [optUserMessage, chatRequest, hu, hb]

lemma sendMessage_dashFail (env : App.SendEnv) (s : App.AppState) (r : ChatResponse)
    (hg : ¬(jsTrim s.inputMessage = "" ∧ s.uploadedFiles.length = 0))
    (hchat : env.chat = some r)
    (hb : 0 < s.uploadedFiles.length ∧ App.dashboardIntent (jsTrim s.inputMessage) = true)
    (hd : env.dash = none) :
    App.sendMessage env s =
      ({ s with
          inputMessage := "", isLoading := false,
          messages := s.messages ++ optUserMessage env.now (jsTrim s.inputMessage) ++
            [App.chatAssistantMessage env.now r, App.sendErrorMessage env.now],
          currentConversationId := r.conversation_id },
        [chatRequest s,
         Request.postCreateDashboard (jsTrim s.inputMessage) r.conversation_id
           (s.uploadedFiles.map (fun f => f.path))]) := by
  simp only [App.sendMessage, hchat, hd]
  rw [if_neg hg]
  by_cases hu : jsTrim s.inputMessage = ""
  · rw [hu] at hb
    rw [dashboardIntent_empty] at hb
    exact absurd hb.2 (by simp)
  · simp [optUserMessage, chatRequest, hu, hb]

lemma sendMessage_dashOk (env : App.SendEnv) (s : App.AppState) (r : ChatResponse)
    (jid : Option String)
    (hg : ¬(jsTrim s.inputMessage = "" ∧ s.uploadedFiles.length = 0))
    (hchat : env.chat = some r)
    (hb : 0 < s.uploadedFiles.length ∧ App.dashboardIntent (jsTrim s.inputMessage) = true)
    (hd : env.dash = some jid) :
    App.sendMessage env s =
      ({ (App.loadConversations env.convs
          { s with
            inputMessage := "", isLoading := true,
            messages := s.messages ++ optUserMessage env.now (jsTrim s.inputMessage) ++
              [App.chatAssistantMessage env.now r],
            currentConversationId := r.conversation_id,
            activeJobs := if jsTruthy jid = true then
                upsertJob s.activeJobs (jid.getD "")
                  { conversation_id := r.conversation_id, status := "processing",
                    progress := 0 }
              else s.activeJobs }).1 with isLoading := false },
        [chatRequest s,
         Request.postCreateDashboard (jsTrim s.inputMessage) r.conversation_id
           (s.uploadedFiles.map (fun f => f.path)),
         Request.getConversations]) := by
  simp only [App.sendMessage, hchat, hd]
  rw [if_neg hg]
  by_cases hu : jsTrim s.inputMessage = ""
  · rw [hu] at hb
    rw [dashboardIntent_empty] at hb
    exact absurd hb.2 (by simp)
  · by_cases hj : jsTruthy jid = true <;> simp [optUserMessage, chatRequest, hu, hb, hj]

lemma lookupJob_upsertJob (jobs : List (String × Job)) (id : String) (j : Job) :
    lookupJob (upsertJob jobs id j) id = some j := by
  induction jobs with
  | nil => simp [upsertJob, lookupJob, List.find?]
  | cons p rest ih =>
    by_cases h : p.1 = id
    · simp [upsertJob, lookupJob, h, List.find?]
    · have ih2 := ih
      simp only [lookupJob] at ih2
      simp [upsertJob, lookupJob, List.find?, h, ih2]

/-- C9: sendMessage never mutates the staged file list, and every create
dashboard request it issues carries the paths of the currently staged
files. -/
theorem C9_staged_files_preserved (env : App.SendEnv) (s : App.AppState) :
    (App.sendMessage env s).1.uploadedFiles = s.uploadedFiles ∧
      ((dashRequests (App.sendMessage env s).2).all
        (fun d => d.2.2 == s.uploadedFiles.map (fun f => f.path))) = true := by
  by_cases hg : (jsTrim s.inputMessage = "" ∧ s.uploadedFiles.length = 0)
  · simp [App.sendMessage, hg, dashRequests]
  · cases hc : env.chat with
    | none =>
      rw [sendMessage_chatFail env s hg hc]
      simp [dashRequests, chatRequest]
    | some r =>
      by_cases hb :
          (0 < s.uploadedFiles.length ∧ App.dashboardIntent (jsTrim s.inputMessage) = true)
      · cases hd : env.dash with
        | none =>
          rw [sendMessage_dashFail env s r hg hc hb hd]
          simp [dashRequests, chatRequest]
        | some jid =>
          rw [sendMessage_dashOk env s r jid hg hc hb hd]
          simp [dashRequests, chatRequest, (loadConversations_frame _ _).2.2.1]
      · rw [sendMessage_noDash env s r hg hc hb]
        simp [dashRequests, chatRequest, (loadConversations_frame _ _).2.2.1]

/-- C7: a create dashboard request is issued exactly when the chat POST
succeeds, the staged file list is non empty and the trimmed message text,
lower cased, contains dashboard, chart or visualization; and when the create
dashboard response carries a truthy job id, a processing entry with zero
progress is inserted into the job map under that id. -/
theorem C7_dashboard_trigger :
    (∀ (env : App.SendEnv) (s : App.AppState),
        (dashRequests (App.sendMessage env s).2 ≠ []) ↔
          (env.chat.isSome = true ∧ s.uploadedFiles ≠ [] ∧
            App.dashboardIntent (jsTrim s.inputMessage) = true)) ∧
      (∀ (env : App.SendEnv) (s : App.AppState) (r : ChatResponse) (jid : Option String),
        env.chat = some r → env.dash = some jid → jsTruthy jid = true →
        s.uploadedFiles ≠ [] → App.dashboardIntent (jsTrim s.inputMessage) = true →
        lookupJob (App.sendMessage env s).1.activeJobs (jid.getD "") =
          some { conversation_id := r.conversation_id, status := "processing",
                 progress := 0 }) := by
  constructor
  · intro env s
    by_cases hg : (jsTrim s.inputMessage = "" ∧ s.uploadedFiles.length = 0)
    · have hfe : s.uploadedFiles = [] := List.length_eq_zero.mp hg.2
      simp [App.sendMessage, hg, dashRequests, hfe]
    · cases hc : env.chat with
      | none =>
        rw [sendMessage_chatFail env s hg hc]
        simp [dashRequests, chatRequest]
      | some r =>
        by_cases hb :
            (0 < s.uploadedFiles.length ∧ App.dashboardIntent (jsTrim s.inputMessage) = true)
        · have hne : s.uploadedFiles ≠ [] := List.length_pos.mp hb.1
          cases hd : env.dash with
          | none =>
            rw [sendMessage_dashFail env s r hg hc hb hd]
            simp [dashRequests, chatRequest, hne, hb.2]
          | some jid =>
            rw [sendMessage_dashOk env s r jid hg hc hb hd]
            simp [dashRequests, chatRequest, hne, hb.2]
        · rw [sendMessage_noDash env s r hg hc hb]
          have hempty : dashRequests [chatRequest s, Request.getConversations] = [] := by
            simp [dashRequests, chatRequest]
          rw [hempty]
          simp only [ne_eq, not_true_eq_false, false_iff]
          intro hcon
          exact hb ⟨List.length_pos.mpr hcon.2.1, hcon.2.2⟩
  · intro env s r jid hchat hdash hjid hne hint
    have hg : ¬(jsTrim s.inputMessage = "" ∧ s.uploadedFiles.length = 0) := by
      intro hcon
      exact hne (List.length_eq_zero.mp hcon.2)
    have hb : 0 < s.uploadedFiles.length ∧ App.dashboardIntent (jsTrim s.inputMessage) = true :=
      ⟨List.length_pos.mpr hne, hint⟩
    rw [sendMessage_dashOk env s r jid hg hchat hb hdash]
    simp [(loadConversations_frame _ _).2.2.2.1, hjid, lookupJob_upsertJob]

/-- Instantiation of the C7 statement at a dashboard requesting send. -/
theorem C7_dashboard_trigger_witness :
    c7Env.chat = some c7Resp ∧ c7Env.dash = some (some "j7") ∧
      jsTruthy (some "j7") = true ∧ c7State.uploadedFiles ≠ [] ∧
      App.dashboardIntent (jsTrim c7State.inputMessage) = true ∧
      lookupJob (App.sendMessage c7Env c7State).1.activeJobs ((some "j7").getD "") =
        some { conversation_id := c7Resp.conversation_id, status := "processing",
               progress := 0 } :=
  ⟨rfl, rfl, rfl, by decide, by decide,
    C7_dashboard_trigger.2 c7Env c7State c7Resp (some "j7") rfl rfl rfl (by decide)
      (by decide)⟩

/-- C10: when the chat POST (or the follow up dashboard POST) fails on a non
empty input, the optimistic user message stays in the log, the cleared input
is not restored, and exactly one error flagged assistant message is appended
after it. -/
theorem C10_no_rollback (env : App.SendEnv) (s : App.AppState)
    (hmsg : jsTrim s.inputMessage ≠ "")
    (hfail : env.chat = none ∨
      (0 < s.uploadedFiles.length ∧ App.dashboardIntent (jsTrim s.inputMessage) = true ∧
        env.dash = none)) :
    (App.sendMessage env s).1.inputMessage = "" ∧
      (App.sendMessage env s).1.messages =
        s.messages ++ [App.mkUserMessage env.now (jsTrim s.inputMessage)] ++
          (match env.chat with
           | some r => [App.chatAssistantMessage env.now r]
           | none => []) ++ [App.sendErrorMessage env.now] ∧
      ((App.sendMessage env s).1.messages.filter (fun m => m.error)).length =
        (s.messages.filter (fun m => m.error)).length + 1 := by
  have hg : ¬(jsTrim s.inputMessage = "" ∧ s.uploadedFiles.length = 0) := by
    intro hcon
    exact hmsg hcon.1
  cases hc : env.chat with
  | none =>
    rw [sendMessage_chatFail env s hg hc]
    simp [optUserMessage, hmsg, App.mkUserMessage, App.sendErrorMessage,
      List.filter_append, List.filter_cons]
  | some r =>
    rcases hfail with hcn | ⟨hlen, hint, hd⟩
    · rw [hc] at hcn
      cases hcn
    · rw [sendMessage_dashFail env s r hg hc ⟨hlen, hint⟩ hd]
      simp [optUserMessage, hmsg, App.mkUserMessage, App.sendErrorMessage,
        App.chatAssistantMessage, List.filter_append, List.filter_cons]

/-- Instantiation of the C10 statement at a failing chat POST. -/
theorem C10_no_rollback_witness :
    jsTrim c10State.inputMessage ≠ "" ∧
      (c10Env.chat = none ∨
        (0 < c10State.uploadedFiles.length ∧
          App.dashboardIntent (jsTrim c10State.inputMessage) = true ∧
          c10Env.dash = none)) ∧
      ((App.sendMessage c10Env c10State).1.inputMessage = "" ∧
        (App.sendMessage c10Env c10State).1.messages =
          c10State.messages ++ [App.mkUserMessage c10Env.now (jsTrim c10State.inputMessage)] ++
            (match c10Env.chat with
             | some r => [App.chatAssistantMessage c10Env.now r]
             | none => []) ++ [App.sendErrorMessage c10Env.now] ∧
        ((App.sendMessage c10Env c10State).1.messages.filter (fun m => m.error)).length =
          (c10State.messages.filter (fun m => m.error)).length + 1) :=
  ⟨by decide, Or.inl rfl, C10_no_rollback c10Env c10State (by decide) (Or.inl rfl)⟩
